import Mathlib

/-!
Shallow embedding of the conversation message ingestion pipeline of the
helper repository: the Gmail webhook handler (`handleGmailWebhookEvent` and its
helpers `isNewThread`, `isThankYouOrAutoResponse`, `assignBasedOnCc`,
`createMessageAndProcessAttachments`, `parseEmailBody`) and the message
creation routine `createConversationMessage`.

External collaborators (Gmail API fetch, AI classification, blob storage,
HTML parsing/text extraction, Unicode normalization, address extraction) are
modelled as oracle functions collected in an `Env` record; the relational
store is modelled as an explicit `DB` value threaded through the functions.
Fallible external calls return `Except`.
-/

namespace Helper

/-- Conversation status enum (`open` | `closed` | `spam`). The source value
`open` is a Lean keyword, so it is rendered `opened` here. -/
inductive ConvStatus where
  | opened
  | closed
  | spam
deriving DecidableEq, Repr

/-- Message role enum (`user` | `staff` | `ai_assistant` | `tool`). -/
inductive Role where
  | user
  | staff
  | ai_assistant
  | tool
deriving DecidableEq, Repr

/-- Message status enum (`queueing` | `sent` | `failed` | `draft` | `discarded`);
the database also allows null, modelled as `Option MsgStatus`. -/
inductive MsgStatus where
  | queueing
  | sent
  | failed
  | draft
  | discarded
deriving DecidableEq, Repr

/-- The mailbox auto-respond preference values (`autoRespondEmailToChat` is a
string enum `draft` | `reply` when present). -/
inductive AutoRespondMode where
  | draft
  | reply
deriving DecidableEq, Repr

/-- Mailbox preferences object; `autoRespondEmailToChat` may be absent. -/
structure MailboxPrefs where
  autoRespondEmailToChat : Option AutoRespondMode := none
deriving DecidableEq, Repr

/-- Mailbox record (the fields read by the pipeline). `preferences` is nullable. -/
structure Mailbox where
  id : Nat
  preferences : Option MailboxPrefs := none
deriving DecidableEq, Repr

/-- Optional chain `mailbox.preferences?.autoRespondEmailToChat`. -/
def mailboxAutoRespond (mailbox : Mailbox) : Option AutoRespondMode :=
  mailbox.preferences.bind (fun p => p.autoRespondEmailToChat)

/-- Gmail support email record (the fields read by the pipeline). -/
structure GmailSupportEmail where
  id : Nat
  email : String
deriving DecidableEq, Repr

/-- A basic staff user profile as returned by `getBasicProfileByEmail`. -/
structure BasicUserProfile where
  id : String
  email : String
deriving DecidableEq, Repr

/-- Persisted conversation row (the columns touched by the pipeline). -/
structure ConversationRec where
  id : Nat
  slug : String
  status : ConvStatus
  closedAt : Option Nat := none
  assignedToId : Option String := none
  assignedToAI : Bool := false
  emailFrom : Option String := none
  emailFromName : Option String := none
  subject : Option String := none
  conversationProvider : Option String := none
  source : Option String := none
  isPrompt : Bool := false
  isVisitor : Bool := false
  anonymousSessionId : Option String := none
  lastMessageAt : Option Nat := none
  lastUserEmailCreatedAt : Option Nat := none
  lastReadAt : Option Nat := none
  updatedAt : Nat := 0
deriving DecidableEq, Repr

/-- Persisted conversation message row (the columns touched by the pipeline). -/
structure MessageRec where
  id : Nat
  conversationId : Nat
  role : Role
  status : Option MsgStatus := none
  userId : Option String := none
  gmailMessageId : Option String := none
  gmailThreadId : Option String := none
  messageId : Option String := none
  references : Option String := none
  emailFrom : Option String := none
  emailTo : Option String := none
  emailCc : Option (List String) := none
  emailBcc : Option (List String) := none
  body : Option String := none
  cleanedUpText : Option String := none
  isPerfect : Bool := false
  isPinned : Bool := false
  isFlaggedAsBad : Bool := false
  createdAt : Nat := 0
deriving DecidableEq, Repr

/-- Prior-values snapshot stored on a ConversationEvent (`changes`). -/
structure ConvChanges where
  status : ConvStatus
  assignedToId : Option String
  assignedToAI : Bool
deriving DecidableEq, Repr

/-- Append-only ConversationEvent audit row. -/
structure ConvEventRec where
  conversationId : Nat
  changes : ConvChanges
  byUserId : Option String := none
  reason : Option String := none
deriving DecidableEq, Repr

/-- A realtime publish (`publish(channel, eventName, data)`); only the
identifying fields are modelled. -/
structure RealtimeEvent where
  channel : String
  event : String
  conversationId : Nat
deriving DecidableEq, Repr

/-- Durable domain events sent through `triggerEvent` (the catalog entries the
embedded code can emit). -/
inductive DomainEvent where
  | embeddingCreate (conversationSlug : String)
  | messageCreated (messageId : Nat) (conversationId : Nat)
  | emailEnqueued (messageId : Nat)
  | autoResponseCreate (messageId : Nat)
  | sendFollowerNotification (conversationId : Nat) (triggeredByUserId : String)
deriving DecidableEq, Repr

/-- The relational store plus the event/realtime sinks, threaded explicitly.
`jobs` pairs each triggered event with its `sleepSeconds` delay (0 when the
options object carried none). -/
structure DB where
  conversations : List ConversationRec := []
  messages : List MessageRec := []
  convEvents : List ConvEventRec := []
  realtime : List RealtimeEvent := []
  jobs : List (DomainEvent × Nat) := []
  nextConversationId : Nat := 1
  nextMessageId : Nat := 1
  historyId : Option Nat := none
deriving DecidableEq, Repr

/-- Result of `getMessageById` + `simpleParser` + `parseEmailAddress`: the
fields of the parsed email the pipeline reads. `html = none` models
mailparser returning `html === false`; `toAddr`/`cc`/`bcc` hold the `text`
fields of the address objects of the `to`/`cc`/`bcc` headers (an absent
header is `none`; `to` is a reserved token in Lean, hence `toAddr`). -/
structure FetchedEmail where
  fromAddress : String
  fromName : Option String := none
  subject : Option String := none
  html : Option String := none
  textAsHtml : Option String := none
  text : Option String := none
  messageId : Option String := none
  references : Option (List String) := none
  toAddr : Option (List String) := none
  cc : Option (List String) := none
  bcc : Option (List String) := none
  date : Option Nat := none
deriving DecidableEq, Repr

/-- Oracles for every external capability the pipeline consumes. `aiQuery`
models `runAIQuery` applied to the message text: `.ok text` is a completed
model response, `.error ()` a thrown invocation failure. `fetchMessage`
models `getMessageById` + parsing keyed by the Gmail message id. -/
structure Env where
  now : Nat
  fetchMessage : String → Except String FetchedEmail
  aiQuery : String → Except Unit String
  getBasicProfileByEmail : String → Option BasicUserProfile
  matchesTransactionalEmailAddress : String → Bool
  extractAddresses : String → List String
  htmlToText : String → String
  extractQuotations : String → String
  inlineImages : String → String × List String
  extractBodyInnerHtml : String → Option String
  normalizeNFKD : String → String
  emailUndoCountdownSeconds : Nat

/-- Model of `triggerEvent`: serialize the payload and enqueue the event durably with
the given visibility delay (`sleepSeconds`, 0 when the options carried none). -/
def triggerEvent (db : DB) (e : DomainEvent) (sleepSeconds : Nat) : DB :=
  { db with jobs := db.jobs ++ [(e, sleepSeconds)] }

/-- The `IGNORED_GMAIL_CATEGORIES` constant. -/
def IGNORED_GMAIL_CATEGORIES : List String :=
  ["CATEGORY_PROMOTIONS", "CATEGORY_UPDATES", "CATEGORY_FORUMS", "CATEGORY_SOCIAL"]

/-- JS `\s` whitespace test (the characters relevant to email HTML). -/
def isJsWhitespace (c : Char) : Bool :=
  c == ' ' || c == '\t' || c == '\n' || c == '\r' || c == '\x0c' || c == '\x0b'

/-- JS `String.prototype.toLowerCase` (character-wise case folding). -/
def jsToLowerCase (s : String) : String :=
  String.mk (s.data.map Char.toLower)

/-- JS `String.prototype.trim`: drop leading and trailing whitespace. -/
def jsTrim (s : String) : String :=
  String.mk (((s.data.dropWhile isJsWhitespace).reverse.dropWhile isJsWhitespace).reverse)

/-- Character-level worker for `s.replace(/\r\n/g, "<br/>")`. -/
def replaceCrlfAux : List Char → List Char
  | [] => []
  | '\r' :: '\n' :: rest => '<' :: 'b' :: 'r' :: '/' :: '>' :: replaceCrlfAux rest
  | c :: rest => c :: replaceCrlfAux rest

/-- Model of `s.replace(/\r\n/g, "<br/>")`: replace every CRLF line break with the
`<br/>` tag. -/
def replaceCrlfWithBr (s : String) : String :=
  String.mk (replaceCrlfAux s.data)

/-- Source `isNewThread = (gmailMessageId, gmailThreadId) => gmailMessageId === gmailThreadId`. -/
def isNewThread (gmailMessageId : String) (gmailThreadId : String) : Bool :=
  gmailMessageId == gmailThreadId

/-- Model of `isThankYouOrAutoResponse`: runs the classification query; on success
compares `content.toLowerCase().trim() === "yes"`; any thrown error is caught,
logged, and `false` is returned. -/
def isThankYouOrAutoResponse (env : Env) (_mailbox : Mailbox) (emailContent : String) : Bool :=
  match env.aiQuery emailContent with
  | Except.ok content => jsTrim (jsToLowerCase content) == "yes"
  | Except.error _ => false

/-- JS truthiness of an optional string (`null`/`undefined` and `""` are falsy). -/
def jsTruthy : Option String → Bool
  | none => false
  | some s => !s.isEmpty

/-- Model of `addressesToString`: joins the `text` fields of an address-object array
with `", "` (a single address object is a one-element list here). -/
def addressesToString (value : List String) : String :=
  String.intercalate ", " value

/-- Fields to set in a conversation update (`none` = field not mentioned).
Doubly-optional fields distinguish "not set" from "set to null". -/
structure ConvSet where
  status : Option ConvStatus := none
  assignedToId : Option (Option String) := none
  assignedToAI : Option Bool := none
  subject : Option String := none
  lastMessageAt : Option Nat := none
  lastUserEmailCreatedAt : Option Nat := none
  lastReadAt : Option Nat := none
deriving DecidableEq, Repr

/-- Options object for `updateConversation`. -/
structure UpdateOptions where
  set : ConvSet
  byUserId : Option String := none
  message : Option String := none
  skipRealtimeEvents : Bool := false
deriving DecidableEq, Repr

/-- Apply a `ConvSet` to a conversation row, stamping `updatedAt` and setting
`closedAt` to now when status is set to `closed`. -/
def applyConvSet (now : Nat) (u : ConvSet) (c : ConversationRec) : ConversationRec :=
  { c with
    status := u.status.getD c.status
    closedAt := if u.status == some ConvStatus.closed then some now else c.closedAt
    assignedToId := u.assignedToId.getD c.assignedToId
    assignedToAI := u.assignedToAI.getD c.assignedToAI
    subject := match u.subject with | some s => some s | none => c.subject
    lastMessageAt := match u.lastMessageAt with | some t => some t | none => c.lastMessageAt
    lastUserEmailCreatedAt :=
      match u.lastUserEmailCreatedAt with | some t => some t | none => c.lastUserEmailCreatedAt
    lastReadAt := match u.lastReadAt with | some t => some t | none => c.lastReadAt
    updatedAt := now }

/-- Modelled from the spec: `updateConversation` of `lib/data/conversation`
(only its test file is in the sources). Contract per spec section 4.5:
`update(conversationId, { set, byUserId, reason, skipRealtimeEvents })`:
returns null without side effects when the conversation is not found; always
stamps `updatedAt`; setting status to `closed` sets `closedAt` to now; always
appends a ConversationEvent whose `changes` snapshot holds the previous
values of status/assignedToId/assignedToAI; publishes `conversation.updated`
(and `conversation.statusChanged` when the status actually changed) unless
`skipRealtimeEvents`; emits `conversations/embedding.create` iff the status
actually changed to `closed`. -/
def updateConversation (env : Env) (db : DB) (conversationId : Nat) (u : UpdateOptions) :
    DB × Option ConversationRec :=
  match db.conversations.find? (fun c => c.id == conversationId) with
  | none => (db, none)
  | some c =>
    let c2 := applyConvSet env.now u.set c
    let statusChanged := c2.status != c.status
    let realtimeAdds : List RealtimeEvent :=
      if u.skipRealtimeEvents then []
      else
        [{ channel := c.slug, event := "conversation.updated", conversationId := conversationId }] ++
        (if statusChanged then
          [{ channel := "conversations-list", event := "conversation.statusChanged",
             conversationId := conversationId }]
         else [])
    let jobAdds : List (DomainEvent × Nat) :=
      if statusChanged && c2.status == ConvStatus.closed then
        [(DomainEvent.embeddingCreate c.slug, 0)]
      else []
    ({ db with
        conversations := db.conversations.map (fun x => if x.id == conversationId then c2 else x)
        convEvents := db.convEvents ++
          [{ conversationId := conversationId
             changes :=
               { status := c.status, assignedToId := c.assignedToId,
                 assignedToAI := c.assignedToAI }
             byUserId := u.byUserId
             reason := u.message }]
        realtime := db.realtime ++ realtimeAdds
        jobs := db.jobs ++ jobAdds },
     some c2)

/-- Insert payload for `createConversationMessage` (`NewConversationMessage`):
required `conversationId`/`role`, everything else optional with the defaults
the column definitions provide. -/
structure NewConversationMessage where
  conversationId : Nat
  role : Role
  status : Option MsgStatus := none
  userId : Option String := none
  gmailMessageId : Option String := none
  gmailThreadId : Option String := none
  messageId : Option String := none
  references : Option String := none
  emailFrom : Option String := none
  emailTo : Option String := none
  emailCc : Option (List String) := none
  emailBcc : Option (List String) := none
  body : Option String := none
  cleanedUpText : Option String := none
  isPerfect : Bool := false
  isPinned : Option Bool := none
  isFlaggedAsBad : Bool := false
  createdAt : Option Nat := none
deriving DecidableEq, Repr

/-- Model of `createConversationMessage`: inserts the message row (spreading
`{ isPinned: false, ...conversationMessage }`), bumps the conversation
timestamps through `updateConversation` with `skipRealtimeEvents`, then
triggers `conversations/message.created` (plus the follower notification for
user/staff messages with a user) when the status is not `draft`, and
`conversations/email.enqueued` with the email undo countdown as delay when
the status is `queueing`. -/
def createConversationMessage (env : Env) (db : DB) (cm : NewConversationMessage) :
    DB × MessageRec :=
  let message : MessageRec :=
    { id := db.nextMessageId
      conversationId := cm.conversationId
      role := cm.role
      status := cm.status
      userId := cm.userId
      gmailMessageId := cm.gmailMessageId
      gmailThreadId := cm.gmailThreadId
      messageId := cm.messageId
      references := cm.references
      emailFrom := cm.emailFrom
      emailTo := cm.emailTo
      emailCc := cm.emailCc
      emailBcc := cm.emailBcc
      body := cm.body
      cleanedUpText := cm.cleanedUpText
      isPerfect := cm.isPerfect
      isPinned := cm.isPinned.getD false
      isFlaggedAsBad := cm.isFlaggedAsBad
      createdAt := cm.createdAt.getD env.now }
  let db := { db with
    messages := db.messages ++ [message]
    nextMessageId := db.nextMessageId + 1 }
  let db := (updateConversation env db message.conversationId
    { set :=
        { lastMessageAt := some env.now
          lastUserEmailCreatedAt := if message.role == Role.user then some env.now else none
          lastReadAt := if message.role == Role.user then some env.now else none }
      skipRealtimeEvents := true }).1
  let jobAdds : List (DomainEvent × Nat) :=
    (if message.status != some MsgStatus.draft then
      [(DomainEvent.messageCreated message.id message.conversationId, 0)] ++
      (if message.userId.isSome && (message.role == Role.user || message.role == Role.staff) then
        [(DomainEvent.sendFollowerNotification message.conversationId
            (message.userId.getD ""), 0)]
       else [])
     else []) ++
    (if message.status == some MsgStatus.queueing then
      [(DomainEvent.emailEnqueued message.id, env.emailUndoCountdownSeconds)]
     else [])
  ({ db with jobs := db.jobs ++ jobAdds }, message)

/-- Match one `<br\s*\/?>` tag (case-insensitive) at the head of a reversed
character list: `>` then an optional `/`, then whitespace, then `r`/`R`,
`b`/`B`, `<`. Returns the remaining reversed characters on a match. -/
def matchBrRev (cs : List Char) : Option (List Char) :=
  match cs with
  | '>' :: cs =>
    let cs := match cs with
      | '/' :: rest => rest
      | rest => rest
    let cs := cs.dropWhile isJsWhitespace
    match cs with
    | r :: b :: '<' :: rest =>
      if (r == 'r' || r == 'R') && (b == 'b' || b == 'B') then some rest else none
    | _ => none
  | _ => none

/-- Strip every trailing `<br\s*\/?>` occurrence from a reversed character
list (fuelled recursion; each match consumes at least four characters). -/
def stripBrRevAux : Nat → List Char → List Char
  | 0, cs => cs
  | n + 1, cs =>
    match matchBrRev cs with
    | some rest => stripBrRevAux n rest
    | none => cs

/-- Model of `content.replace(/(<br\s*\/?>)+$/i, "")`: remove the trailing run of
line-break-only tags. -/
def stripTrailingBrTags (s : String) : String :=
  let rev := s.data.reverse
  String.mk (stripBrRevAux rev.length rev).reverse

/-- Model of `parseEmailBody`: if mailparser produced no HTML body (`html === false`),
take `textAsHtml ?? text` and replace every `\r\n` with `<br/>`; otherwise
take the HTML body. An absent/empty body yields `""`. Then extract
`document.body.innerHTML` (falling back to the raw string when the parsed
document has no body element), strip trailing `<br/>` tags, and normalize
with NFKD. -/
def parseEmailBody (env : Env) (parsedEmail : FetchedEmail) : String :=
  let parsedEmailBody : Option String :=
    match parsedEmail.html with
    | none =>
      (parsedEmail.textAsHtml <|> parsedEmail.text).map replaceCrlfWithBr
    | some h => some h
  match parsedEmailBody with
  | none => ""
  | some body =>
    if body.isEmpty then ""
    else
      let content := (env.extractBodyInnerHtml body).getD body
      let content := stripTrailingBrTags content
      env.normalizeNFKD content

/-- Model of `assignBasedOnCc`: extract the CC addresses, drop the mailbox's own
address (case-insensitive), and assign the conversation to the first address
whose profile lookup succeeds, with reason "Auto-assigned based on CC" and
`skipRealtimeEvents: true`; the loop breaks on the first match. -/
def assignBasedOnCc (env : Env) (db : DB) (conversationId : Nat) (emailCc : String)
    (gmailSupportEmail : GmailSupportEmail) : DB :=
  let ccAddresses := (env.extractAddresses emailCc).filter
    (fun address => jsToLowerCase address != jsToLowerCase gmailSupportEmail.email)
  match ccAddresses.findSome? (fun ccAddress => env.getBasicProfileByEmail ccAddress) with
  | some ccStaffUser =>
    (updateConversation env db conversationId
      { set := { assignedToId := some (some ccStaffUser.id), assignedToAI := some false }
        message := some "Auto-assigned based on CC"
        skipRealtimeEvents := true }).1
  | none => db

/-- The conversation columns returned by the pipeline's conversation queries
(`returning`/`with` clauses select id, slug, status, assignedToAI). -/
structure ConvRef where
  id : Nat
  slug : String
  status : ConvStatus
  assignedToAI : Bool
deriving DecidableEq, Repr

/-- The insert payload built by `createMessageAndProcessAttachments`:
role/status depending on whether the sender matched a staff profile, the
joined references and address strings, and the pipeline's fixed flags. -/
def gmailMessagePayload (env : Env) (parsedEmail : FetchedEmail) (processedHtml : String)
    (cleanedUpText : String) (gmailMessageId : String) (gmailThreadId : String)
    (conversationId : Nat) (staffUser : Option BasicUserProfile) : NewConversationMessage :=
  let references := parsedEmail.references.map (fun rs => String.intercalate " " rs)
  let emailTo := parsedEmail.toAddr.map addressesToString
  let emailCc := parsedEmail.cc.map addressesToString
  let emailBcc := parsedEmail.bcc.map addressesToString
  { role := if staffUser.isSome then Role.staff else Role.user
    status := if staffUser.isSome then some MsgStatus.sent else none
    userId := staffUser.map (fun u => u.id)
    gmailMessageId := some gmailMessageId
    gmailThreadId := some gmailThreadId
    messageId :=
      match parsedEmail.messageId with
      | some m => if m.length > 0 then some m else none
      | none => none
    references := references
    conversationId := conversationId
    emailFrom := some parsedEmail.fromAddress
    emailTo := emailTo
    emailCc := if jsTruthy emailCc then (emailCc.map env.extractAddresses) else none
    emailBcc := if jsTruthy emailBcc then (emailBcc.map env.extractAddresses) else none
    body := some processedHtml
    cleanedUpText := some cleanedUpText
    isPerfect := false
    isPinned := some false
    isFlaggedAsBad := false
    createdAt := some (parsedEmail.date.getD env.now) }

/-- The CC auto-assignment guard after message creation: only when the
message carries CC addresses and has no staff sender does it re-read the
conversation's `assignedToId` (only that column) and, when unset, run
`assignBasedOnCc`. -/
def maybeAssignBasedOnCc (env : Env) (gmailSupportEmail : GmailSupportEmail)
    (conversationId : Nat) (emailCc : Option String) (staffUser : Option BasicUserProfile)
    (db : DB) : DB :=
  if jsTruthy emailCc && staffUser.isNone then
    let assignedToId :=
      (db.conversations.find? (fun c => c.id == conversationId)).bind
        (fun c => c.assignedToId)
    if assignedToId.isNone then
      assignBasedOnCc env db conversationId (emailCc.getD "") gmailSupportEmail
    else db
  else db

/-- Model of `createMessageAndProcessAttachments`: persists the message via
`createConversationMessage` with the payload above, finishes the inline-image
file upload (not tracked in this model), runs the CC auto-assignment guard,
and processes attachments (failures caught and logged, store unchanged here). -/
def createMessageAndProcessAttachments (env : Env) (gmailSupportEmail : GmailSupportEmail)
    (parsedEmail : FetchedEmail) (processedHtml : String) (cleanedUpText : String)
    (_fileSlugs : List String) (gmailMessageId : String) (gmailThreadId : String)
    (conversation : ConvRef) (staffUser : Option BasicUserProfile) (db : DB) :
    DB × MessageRec :=
  let created := createConversationMessage env db
    (gmailMessagePayload env parsedEmail processedHtml cleanedUpText gmailMessageId
      gmailThreadId conversation.id staffUser)
  (maybeAssignBasedOnCc env gmailSupportEmail conversation.id
    (parsedEmail.cc.map addressesToString) staffUser created.1, created.2)

/-- The conversation row inserted by the `createNewConversation` closure for
a given fresh id. -/
def newConversationRec (env : Env) (mailbox : Mailbox) (parsedEmail : FetchedEmail)
    (shouldIgnore : Bool) (id : Nat) : ConversationRec :=
  { id := id
    slug := "conversation-" ++ toString id
    emailFrom := some parsedEmail.fromAddress
    emailFromName := parsedEmail.fromName
    subject := parsedEmail.subject
    status := if shouldIgnore then ConvStatus.closed else ConvStatus.opened
    closedAt := if shouldIgnore then some env.now else none
    conversationProvider := some "gmail"
    source := some "email"
    isPrompt := false
    isVisitor := false
    assignedToAI := (mailboxAutoRespond mailbox).isSome
    anonymousSessionId := none
    updatedAt := env.now }

/-- The `createNewConversation` closure inside the webhook handler: insert a
conversation with status `closed`+`closedAt = now` when the message should be
ignored (else `open`), provider gmail/source email, and `assignedToAI`
initialized from `!!mailbox.preferences?.autoRespondEmailToChat`. The slug is
generated by the store; modelled deterministically from the fresh id. -/
def createNewConversation (env : Env) (mailbox : Mailbox) (parsedEmail : FetchedEmail)
    (shouldIgnore : Bool) (db : DB) : DB × ConvRef :=
  let conv := newConversationRec env mailbox parsedEmail shouldIgnore db.nextConversationId
  ({ db with
      conversations := db.conversations ++ [conv]
      nextConversationId := db.nextConversationId + 1 },
   { id := conv.id, slug := conv.slug, status := conv.status, assignedToAI := conv.assignedToAI })

/-- The most recent persisted message with the given `gmailThreadId`
(`findFirst ... orderBy desc(createdAt)`). -/
def latestMessageInThread (db : DB) (gmailThreadId : String) : Option MessageRec :=
  db.messages.foldl
    (fun acc m =>
      if m.gmailThreadId == some gmailThreadId then
        match acc with
        | none => some m
        | some best => if m.createdAt > best.createdAt then some m else some best
      else acc)
    none

/-- Conversation resolution (webhook handler lines 313-334): a first-in-thread
message always creates a new conversation; otherwise the conversation of the
most recent message on the thread is adopted, falling back to creating a new
conversation when no such message (or its conversation row) exists. -/
def resolveConversation (env : Env) (mailbox : Mailbox) (parsedEmail : FetchedEmail)
    (shouldIgnore : Bool) (gmailMessageId : String) (gmailThreadId : String) (db : DB) :
    DB × ConvRef :=
  if isNewThread gmailMessageId gmailThreadId then
    createNewConversation env mailbox parsedEmail shouldIgnore db
  else
    match latestMessageInThread db gmailThreadId with
    | some previousEmail =>
      match db.conversations.find? (fun c => c.id == previousEmail.conversationId) with
      | some c =>
        (db, { id := c.id, slug := c.slug, status := c.status, assignedToAI := c.assignedToAI })
      | none => createNewConversation env mailbox parsedEmail shouldIgnore db
    | none => createNewConversation env mailbox parsedEmail shouldIgnore db

/-- The ignore decision (webhook handler lines 277-286): staff sender on a
follow-up, an ignored Gmail category, or a transactional sender address; when
none of those hold, the classification service is consulted and its verdict
both becomes the decision and is recorded as `isAutomatedResponseOrThankYou`
(second component; `none` when classification was not invoked). -/
def computeShouldIgnore (env : Env) (mailbox : Mailbox) (staffUser : Option BasicUserProfile)
    (isFirstMessage : Bool) (labelIds : List String) (fromAddress : String)
    (cleanedUpText : String) : Bool × Option Bool :=
  let shouldIgnore :=
    (staffUser.isSome && !isFirstMessage) ||
    labelIds.any (fun id => IGNORED_GMAIL_CATEGORIES.contains id) ||
    env.matchesTransactionalEmailAddress fromAddress
  if !shouldIgnore then
    let isAutomatedResponseOrThankYou := isThankYouOrAutoResponse env mailbox cleanedUpText
    (isAutomatedResponseOrThankYou, some isAutomatedResponseOrThankYou)
  else
    (shouldIgnore, none)

/-- The reopen step (webhook handler lines 348-354): transition the resolved
conversation to `open` when it is closed, it is not AI-assigned or the
mailbox auto-respond mode is `draft`, and the message is not ignorable. -/
def maybeReopenConversation (env : Env) (mailbox : Mailbox) (conversation : ConvRef)
    (shouldIgnore : Bool) (db : DB) : DB :=
  if conversation.status == ConvStatus.closed &&
      (!conversation.assignedToAI || mailboxAutoRespond mailbox == some AutoRespondMode.draft) &&
      !shouldIgnore then
    (updateConversation env db conversation.id { set := { status := some ConvStatus.opened } }).1
  else db

/-- Inline-image extraction plus cleaned-up-text computation for one message
(webhook handler lines 269-272): returns the processed HTML, the inline-image
file slugs, and the html-to-text conversion of the full body (first message)
or the quotation-stripped body (follow-up). -/
def normalizedEmailContent (env : Env) (gmailMessageId : String) (gmailThreadId : String)
    (parsedEmail : FetchedEmail) : String × List String × String :=
  let parsedEmailBody := parseEmailBody env parsedEmail
  let inline := env.inlineImages parsedEmailBody
  let processedHtml := inline.1
  let fileSlugs := inline.2
  let cleanedUpText := env.htmlToText
    (if isNewThread gmailMessageId gmailThreadId then processedHtml
     else env.extractQuotations processedHtml)
  (processedHtml, fileSlugs, cleanedUpText)

/-- The full ignore decision for one message: staff lookup, first-in-thread
test and `computeShouldIgnore` on the cleaned-up text. -/
def messageIgnoreDecision (env : Env) (mailbox : Mailbox) (gmailMessageId : String)
    (gmailThreadId : String) (labelIds : List String) (parsedEmail : FetchedEmail) :
    Bool × Option Bool :=
  computeShouldIgnore env mailbox (env.getBasicProfileByEmail parsedEmail.fromAddress)
    (isNewThread gmailMessageId gmailThreadId) labelIds parsedEmail.fromAddress
    (normalizedEmailContent env gmailMessageId gmailThreadId parsedEmail).2.2

/-- Per-message result entry accumulated in `results`. -/
structure ResultEntry where
  message : String
  responded : Option Bool := none
  isAutomatedResponseOrThankYou : Option Bool := none
  gmailMessageId : Option String := none
  gmailThreadId : Option String := none
  messageId : Option Nat := none
  conversationSlug : Option String := none
deriving DecidableEq, Repr

/-- One `messagesAdded` entry of the history response: the message reference
with its optional id, thread id and label ids. -/
structure MessageAddedRef where
  id : Option String := none
  threadId : Option String := none
  labelIds : List String := []
deriving DecidableEq, Repr

/-- Processing of one fetched message (webhook handler lines 257-368, after
`getMessageById` and parsing succeeded): skip mail sent from the mailbox
itself; extract inline images and the cleaned-up text (quotation-stripped for
follow-ups); compute the ignore decision; resolve the conversation; persist
the message with attachments; apply the reopen rule; trigger the
auto-response event for non-ignored messages; record the result entry. -/
def processDeliveredMessage (env : Env) (mailbox : Mailbox)
    (gmailSupportEmail : GmailSupportEmail) (gmailMessageId : String) (gmailThreadId : String)
    (labelIds : List String) (parsedEmail : FetchedEmail) (db : DB) : DB × ResultEntry :=
  if parsedEmail.fromAddress == gmailSupportEmail.email then
    (db, { message := "Skipped - message " ++ gmailMessageId ++ " sent from mailbox"
           gmailMessageId := some gmailMessageId
           gmailThreadId := some gmailThreadId })
  else
    let content := normalizedEmailContent env gmailMessageId gmailThreadId parsedEmail
    let processedHtml := content.1
    let fileSlugs := content.2.1
    let cleanedUpText := content.2.2
    let staffUser := env.getBasicProfileByEmail parsedEmail.fromAddress
    let ignoreDecision := messageIgnoreDecision env mailbox gmailMessageId gmailThreadId
      labelIds parsedEmail
    let shouldIgnore := ignoreDecision.1
    let isAutomatedResponseOrThankYou := ignoreDecision.2
    let resolved := resolveConversation env mailbox parsedEmail shouldIgnore gmailMessageId
      gmailThreadId db
    let db := resolved.1
    let conversation := resolved.2
    let created := createMessageAndProcessAttachments env gmailSupportEmail parsedEmail
      processedHtml cleanedUpText fileSlugs gmailMessageId gmailThreadId conversation staffUser db
    let db := created.1
    let newEmail := created.2
    let db := maybeReopenConversation env mailbox conversation shouldIgnore db
    let db :=
      if !shouldIgnore then
        triggerEvent db (DomainEvent.autoResponseCreate newEmail.id) 0
      else db
    (db, { message := "Created message " ++ toString newEmail.id
           messageId := some newEmail.id
           conversationSlug := some conversation.slug
           responded := some (!shouldIgnore)
           isAutomatedResponseOrThankYou := isAutomatedResponseOrThankYou
           gmailMessageId := some gmailMessageId
           gmailThreadId := some gmailThreadId })

/-- Processing of one `messagesAdded` entry (webhook handler lines 230-374):
skip entries lacking a message or thread id; skip already-persisted Gmail
message ids; otherwise fetch and process the message, catching any thrown
error as an error result entry without affecting the store. -/
def processMessage (env : Env) (mailbox : Mailbox) (gmailSupportEmail : GmailSupportEmail)
    (db : DB) (ref : MessageAddedRef) : DB × ResultEntry :=
  match ref.id, ref.threadId with
  | some gmailMessageId, some gmailThreadId =>
    if (db.messages.find? (fun m => m.gmailMessageId == some gmailMessageId)).isSome then
      (db, { message := "Skipped - message " ++ gmailMessageId ++ " already exists"
             gmailMessageId := some gmailMessageId
             gmailThreadId := some gmailThreadId })
    else
      match env.fetchMessage gmailMessageId with
      | Except.error err =>
        (db, { message := "Error processing message " ++ gmailMessageId ++ ": " ++ err
               gmailMessageId := some gmailMessageId
               gmailThreadId := some gmailThreadId })
      | Except.ok parsedEmail =>
        processDeliveredMessage env mailbox gmailSupportEmail gmailMessageId gmailThreadId
          ref.labelIds parsedEmail db
  | _, _ =>
    (db, { message := "Skipped - missing message ID or thread ID"
           gmailMessageId := ref.id
           gmailThreadId := ref.threadId })

/-- Number of persisted messages carrying a given Gmail message id. -/
def countWithGmailId (db : DB) (gmailMessageId : String) : Nat :=
  (db.messages.filter (fun m => m.gmailMessageId == some gmailMessageId)).length

/-- Look up a conversation row by id. -/
def getConv (db : DB) (conversationId : Nat) : Option ConversationRec :=
  db.conversations.find? (fun c => c.id == conversationId)

/-- The `assignedToId` of a conversation row, when the row exists. -/
def getAssignedToId (db : DB) (conversationId : Nat) : Option String :=
  (getConv db conversationId).bind (fun c => c.assignedToId)

/-- The status of a conversation row, when the row exists. -/
def getConvStatus (db : DB) (conversationId : Nat) : Option ConvStatus :=
  (getConv db conversationId).map (fun c => c.status)

/-- Decoded webhook payload (`{ emailAddress, historyId }`). -/
structure WebhookData where
  emailAddress : String
  historyId : Nat
deriving DecidableEq, Repr

/-- The webhook handler batch loop and cursor write (lines 230-379): process
each `messagesAdded` entry sequentially, accumulating one result entry per
entry, then persist the payload's history id on the Gmail support email
record unconditionally. -/
def handleGmailWebhookEvent (env : Env) (mailbox : Mailbox)
    (gmailSupportEmail : GmailSupportEmail) (data : WebhookData)
    (messagesAdded : List MessageAddedRef) (db : DB) : DB × List ResultEntry :=
  let processed := messagesAdded.foldl
    (fun (acc : DB × List ResultEntry) ref =>
      let step := processMessage env mailbox gmailSupportEmail acc.1 ref
      (step.1, acc.2 ++ [step.2]))
    (db, [])
  ({ processed.1 with historyId := some data.historyId }, processed.2)

/-! Concrete fixtures used to evaluate the definitions on closed inputs. -/

/-- A concrete inbound customer email. -/
def sampleFetched : FetchedEmail :=
  { fromAddress := "customer@example.com"
    fromName := some "Customer"
    subject := some "Help request"
    text := some "Can you help?"
    date := some 50 }

/-- A concrete inbound email carrying CC addresses. -/
def sampleFetchedCc : FetchedEmail :=
  { sampleFetched with cc := some ["staff@example.com", "support@example.com"] }

/-- A concrete environment: fetching id "gbad" throws, classifying the text
"thanks" answers yes, classifying "down" throws, everything else answers no;
"staff@example.com" is the only staff profile. -/
def sampleEnv : Env :=
  { now := 100
    fetchMessage := fun g =>
      if g == "gbad" then Except.error "network error"
      else if g == "gcc" then Except.ok sampleFetchedCc
      else Except.ok sampleFetched
    aiQuery := fun s =>
      if s == "thanks" then Except.ok " Yes "
      else if s == "down" then Except.error ()
      else Except.ok "no"
    getBasicProfileByEmail := fun a =>
      if a == "staff@example.com" then some { id := "staff-1", email := "staff@example.com" }
      else none
    matchesTransactionalEmailAddress := fun _ => false
    extractAddresses := fun s =>
      if s == "staff@example.com, support@example.com" then
        ["staff@example.com", "support@example.com"]
      else if s.isEmpty then [] else [s]
    htmlToText := fun s => s
    extractQuotations := fun s => s
    inlineImages := fun s => (s, [])
    extractBodyInnerHtml := fun _ => none
    normalizeNFKD := fun s => s
    emailUndoCountdownSeconds := 15 }

/-- A concrete mailbox with no auto-respond preference. -/
def sampleMailbox : Mailbox := { id := 1 }

/-- A concrete mailbox whose auto-respond mode is `reply`. -/
def sampleMailboxReply : Mailbox :=
  { id := 2, preferences := some { autoRespondEmailToChat := some AutoRespondMode.reply } }

/-- A concrete mailbox whose auto-respond mode is `draft`. -/
def sampleMailboxDraft : Mailbox :=
  { id := 3, preferences := some { autoRespondEmailToChat := some AutoRespondMode.draft } }

/-- The concrete Gmail support email record. -/
def sampleGse : GmailSupportEmail := { id := 1, email := "support@example.com" }

/-- The empty store. -/
def sampleDB : DB := {}

/-- A store holding one closed, AI-assigned conversation (id 7) with no
human assignee, and one persisted message on thread "t7" attached to it. -/
def sampleDBClosed : DB :=
  { conversations :=
      [{ id := 7, slug := "conversation-7", status := ConvStatus.closed,
         closedAt := some 10, assignedToAI := true }]
    messages :=
      [{ id := 3, conversationId := 7, role := Role.user,
         gmailMessageId := some "t7", gmailThreadId := some "t7", createdAt := 5 }]
    nextConversationId := 8
    nextMessageId := 4 }

/-- A concrete queued staff reply payload. -/
def sampleQueueingMessage : NewConversationMessage :=
  { conversationId := 7
    role := Role.staff
    status := some MsgStatus.queueing
    userId := some "staff-1" }

/-- A concrete AI draft payload. -/
def sampleDraftMessage : NewConversationMessage :=
  { conversationId := 7
    role := Role.ai_assistant
    status := some MsgStatus.draft }

/-- The closed conversation of `sampleDBClosed` as the pipeline's selected
columns. -/
def sampleConvRef7 : ConvRef :=
  { id := 7
    slug := "conversation-7"
    status := ConvStatus.closed
    assignedToAI := true }

/-! Helper lemmas: store projections preserved or transformed by each
operation. -/

theorem updateConversation_messages (env : Env) (db : DB) (cid : Nat) (u : UpdateOptions) :
    ((updateConversation env db cid u).1).messages = db.messages := by
  unfold updateConversation
  cases db.conversations.find? (fun c => c.id == cid) <;> rfl

theorem updateConversation_nextMessageId (env : Env) (db : DB) (cid : Nat) (u : UpdateOptions) :
    ((updateConversation env db cid u).1).nextMessageId = db.nextMessageId := by
  unfold updateConversation
  cases db.conversations.find? (fun c => c.id == cid) <;> rfl

theorem updateConversation_nextConversationId (env : Env) (db : DB) (cid : Nat)
    (u : UpdateOptions) :
    ((updateConversation env db cid u).1).nextConversationId = db.nextConversationId := by
  unfold updateConversation
  cases db.conversations.find? (fun c => c.id == cid) <;> rfl

theorem updateConversation_historyId (env : Env) (db : DB) (cid : Nat) (u : UpdateOptions) :
    ((updateConversation env db cid u).1).historyId = db.historyId := by
  unfold updateConversation
  cases db.conversations.find? (fun c => c.id == cid) <;> rfl

theorem updateConversation_jobs_of_status_ne_closed (env : Env) (db : DB) (cid : Nat)
    (u : UpdateOptions) (h : u.set.status ≠ some ConvStatus.closed) :
    ((updateConversation env db cid u).1).jobs = db.jobs := by
  unfold updateConversation
  cases db.conversations.find? (fun c => c.id == cid) with
  | none => rfl
  | some c =>
    rcases hs : u.set.status with _ | s
    · simp [applyConvSet, hs]
    · have hs' : s ≠ ConvStatus.closed := by
        intro e
        exact h (by rw [hs, e])
      simp [applyConvSet, hs, hs']

theorem updateConversation_realtime_of_skip (env : Env) (db : DB) (cid : Nat)
    (u : UpdateOptions) (h : u.skipRealtimeEvents = true) :
    ((updateConversation env db cid u).1).realtime = db.realtime := by
  unfold updateConversation
  cases db.conversations.find? (fun c => c.id == cid) with
  | none => rfl
  | some c => simp [h]

theorem applyConvSet_id (now : Nat) (u : ConvSet) (c : ConversationRec) :
    (applyConvSet now u c).id = c.id := rfl

theorem applyConvSet_assignedToId (now : Nat) (u : ConvSet) (c : ConversationRec)
    (h : u.assignedToId = none) : (applyConvSet now u c).assignedToId = c.assignedToId := by
  simp [applyConvSet, h]

theorem applyConvSet_status_of_none (now : Nat) (u : ConvSet) (c : ConversationRec)
    (h : u.status = none) : (applyConvSet now u c).status = c.status := by
  simp [applyConvSet, h]

theorem applyConvSet_status_of_some (now : Nat) (u : ConvSet) (c : ConversationRec)
    (s : ConvStatus) (h : u.status = some s) : (applyConvSet now u c).status = s := by
  simp [applyConvSet, h]

theorem find?_map_update (l : List ConversationRec) (cid : Nat) (c2 : ConversationRec)
    (h : c2.id = cid) :
    (l.map fun x => if x.id == cid then c2 else x).find? (fun x => x.id == cid)
      = (l.find? fun x => x.id == cid).map (fun _ => c2) := by
  induction l with
  | nil => rfl
  | cons a l ih =>
    simp only [List.map_cons]
    by_cases ha : a.id = cid
    · rw [if_pos (by simp [ha])]
      rw [List.find?_cons_of_pos _ (by simp [h]), List.find?_cons_of_pos _ (by simp [ha])]
      rfl
    · rw [if_neg (by simp [ha])]
      rw [List.find?_cons_of_neg _ (by simp [ha]), List.find?_cons_of_neg _ (by simp [ha]), ih]

theorem getConv_updateConversation (env : Env) (db : DB) (cid : Nat) (u : UpdateOptions) :
    getConv ((updateConversation env db cid u).1) cid
      = (getConv db cid).map (applyConvSet env.now u.set) := by
  unfold updateConversation
  cases hf : db.conversations.find? (fun c => c.id == cid) with
  | none => simp [getConv, hf]
  | some c =>
    have hid : c.id = cid := by
      have := List.find?_some hf
      simpa using this
    simp only [getConv]
    rw [find?_map_update _ _ _ (by rw [applyConvSet_id, hid]), hf]
    rfl

theorem updateConversation_find?_self (env : Env) (db : DB) (cid : Nat) (u : UpdateOptions) :
    ((updateConversation env db cid u).1).conversations.find? (fun c => c.id == cid)
      = (db.conversations.find? (fun c => c.id == cid)).map (applyConvSet env.now u.set) :=
  getConv_updateConversation env db cid u

theorem createConversationMessage_snd (env : Env) (db : DB) (cm : NewConversationMessage) :
    (createConversationMessage env db cm).2 =
      { id := db.nextMessageId
        conversationId := cm.conversationId
        role := cm.role
        status := cm.status
        userId := cm.userId
        gmailMessageId := cm.gmailMessageId
        gmailThreadId := cm.gmailThreadId
        messageId := cm.messageId
        references := cm.references
        emailFrom := cm.emailFrom
        emailTo := cm.emailTo
        emailCc := cm.emailCc
        emailBcc := cm.emailBcc
        body := cm.body
        cleanedUpText := cm.cleanedUpText
        isPerfect := cm.isPerfect
        isPinned := cm.isPinned.getD false
        isFlaggedAsBad := cm.isFlaggedAsBad
        createdAt := cm.createdAt.getD env.now } := rfl

theorem createConversationMessage_messages (env : Env) (db : DB) (cm : NewConversationMessage) :
    ((createConversationMessage env db cm).1).messages
      = db.messages ++ [(createConversationMessage env db cm).2] := by
  unfold createConversationMessage
  rw [updateConversation_messages]

theorem createConversationMessage_nextMessageId (env : Env) (db : DB)
    (cm : NewConversationMessage) :
    ((createConversationMessage env db cm).1).nextMessageId = db.nextMessageId + 1 := by
  unfold createConversationMessage
  rw [updateConversation_nextMessageId]

theorem createConversationMessage_historyId (env : Env) (db : DB)
    (cm : NewConversationMessage) :
    ((createConversationMessage env db cm).1).historyId = db.historyId := by
  unfold createConversationMessage
  rw [updateConversation_historyId]

theorem createConversationMessage_jobs (env : Env) (db : DB) (cm : NewConversationMessage) :
    ((createConversationMessage env db cm).1).jobs = db.jobs ++
      ((if cm.status != some MsgStatus.draft then
          [(DomainEvent.messageCreated db.nextMessageId cm.conversationId, 0)] ++
          (if cm.userId.isSome && (cm.role == Role.user || cm.role == Role.staff) then
            [(DomainEvent.sendFollowerNotification cm.conversationId (cm.userId.getD ""), 0)]
           else [])
        else []) ++
       (if cm.status == some MsgStatus.queueing then
          [(DomainEvent.emailEnqueued db.nextMessageId, env.emailUndoCountdownSeconds)]
        else [])) := by
  simp only [createConversationMessage]
  rw [updateConversation_jobs_of_status_ne_closed _ _ _ _ (by simp)]

theorem createConversationMessage_realtime (env : Env) (db : DB)
    (cm : NewConversationMessage) :
    ((createConversationMessage env db cm).1).realtime = db.realtime := by
  unfold createConversationMessage
  rw [updateConversation_realtime_of_skip]
  rfl

theorem createConversationMessage_getConv (env : Env) (db : DB) (cm : NewConversationMessage)
    (cid : Nat) (hcid : cid = cm.conversationId) :
    getConv ((createConversationMessage env db cm).1) cid
      = (getConv db cid).map
          (applyConvSet env.now
            { lastMessageAt := some env.now
              lastUserEmailCreatedAt :=
                if (cm.role == Role.user) = true then some env.now else none
              lastReadAt := if (cm.role == Role.user) = true then some env.now else none }) := by
  subst hcid
  unfold getConv
  simp only [createConversationMessage]
  rw [updateConversation_find?_self]

theorem createConversationMessage_assignedToId (env : Env) (db : DB)
    (cm : NewConversationMessage) (cid : Nat) (hcid : cid = cm.conversationId) :
    getAssignedToId ((createConversationMessage env db cm).1) cid = getAssignedToId db cid := by
  unfold getAssignedToId
  rw [createConversationMessage_getConv env db cm cid hcid]
  cases getConv db cid with
  | none => rfl
  | some c => simp [applyConvSet_assignedToId]

theorem createNewConversation_fst (env : Env) (mailbox : Mailbox) (fe : FetchedEmail)
    (si : Bool) (db : DB) :
    (createNewConversation env mailbox fe si db).1 =
      { db with
        conversations := db.conversations ++ [newConversationRec env mailbox fe si db.nextConversationId]
        nextConversationId := db.nextConversationId + 1 } := rfl

theorem createNewConversation_snd (env : Env) (mailbox : Mailbox) (fe : FetchedEmail)
    (si : Bool) (db : DB) :
    (createNewConversation env mailbox fe si db).2 =
      { id := db.nextConversationId
        slug := "conversation-" ++ toString db.nextConversationId
        status := if si then ConvStatus.closed else ConvStatus.opened
        assignedToAI := (mailboxAutoRespond mailbox).isSome } := by
  unfold createNewConversation newConversationRec
  rfl

theorem resolveConversation_db_cases (env : Env) (mailbox : Mailbox) (fe : FetchedEmail)
    (si : Bool) (g t : String) (db : DB) :
    (resolveConversation env mailbox fe si g t db).1 = db ∨
    (resolveConversation env mailbox fe si g t db).1 = (createNewConversation env mailbox fe si db).1 := by
  unfold resolveConversation
  split
  · exact Or.inr rfl
  · cases latestMessageInThread db t with
    | none => exact Or.inr rfl
    | some prev =>
      dsimp only
      cases db.conversations.find? (fun c => c.id == prev.conversationId) with
      | none => exact Or.inr rfl
      | some c => exact Or.inl rfl

theorem resolveConversation_messages (env : Env) (mailbox : Mailbox) (fe : FetchedEmail)
    (si : Bool) (g t : String) (db : DB) :
    ((resolveConversation env mailbox fe si g t db).1).messages = db.messages := by
  rcases resolveConversation_db_cases env mailbox fe si g t db with h | h <;> rw [h] <;> rfl

theorem resolveConversation_jobs (env : Env) (mailbox : Mailbox) (fe : FetchedEmail)
    (si : Bool) (g t : String) (db : DB) :
    ((resolveConversation env mailbox fe si g t db).1).jobs = db.jobs := by
  rcases resolveConversation_db_cases env mailbox fe si g t db with h | h <;> rw [h] <;> rfl

theorem resolveConversation_nextMessageId (env : Env) (mailbox : Mailbox) (fe : FetchedEmail)
    (si : Bool) (g t : String) (db : DB) :
    ((resolveConversation env mailbox fe si g t db).1).nextMessageId = db.nextMessageId := by
  rcases resolveConversation_db_cases env mailbox fe si g t db with h | h <;> rw [h] <;> rfl

theorem resolveConversation_historyId (env : Env) (mailbox : Mailbox) (fe : FetchedEmail)
    (si : Bool) (g t : String) (db : DB) :
    ((resolveConversation env mailbox fe si g t db).1).historyId = db.historyId := by
  rcases resolveConversation_db_cases env mailbox fe si g t db with h | h <;> rw [h] <;> rfl

theorem assignBasedOnCc_messages (env : Env) (db : DB) (cid : Nat) (cc : String)
    (gse : GmailSupportEmail) :
    (assignBasedOnCc env db cid cc gse).messages = db.messages := by
  unfold assignBasedOnCc
  dsimp only
  split
  · rw [updateConversation_messages]
  · rfl

theorem assignBasedOnCc_jobs (env : Env) (db : DB) (cid : Nat) (cc : String)
    (gse : GmailSupportEmail) :
    (assignBasedOnCc env db cid cc gse).jobs = db.jobs := by
  unfold assignBasedOnCc
  dsimp only
  split
  · rw [updateConversation_jobs_of_status_ne_closed _ _ _ _ (by simp)]
  · rfl

theorem assignBasedOnCc_realtime (env : Env) (db : DB) (cid : Nat) (cc : String)
    (gse : GmailSupportEmail) :
    (assignBasedOnCc env db cid cc gse).realtime = db.realtime := by
  unfold assignBasedOnCc
  dsimp only
  split
  · rw [updateConversation_realtime_of_skip _ _ _ _ rfl]
  · rfl

theorem assignBasedOnCc_nextMessageId (env : Env) (db : DB) (cid : Nat) (cc : String)
    (gse : GmailSupportEmail) :
    (assignBasedOnCc env db cid cc gse).nextMessageId = db.nextMessageId := by
  unfold assignBasedOnCc
  dsimp only
  split
  · rw [updateConversation_nextMessageId]
  · rfl

theorem assignBasedOnCc_historyId (env : Env) (db : DB) (cid : Nat) (cc : String)
    (gse : GmailSupportEmail) :
    (assignBasedOnCc env db cid cc gse).historyId = db.historyId := by
  unfold assignBasedOnCc
  dsimp only
  split
  · rw [updateConversation_historyId]
  · rfl

theorem maybeReopenConversation_messages (env : Env) (mailbox : Mailbox) (conv : ConvRef)
    (si : Bool) (db : DB) :
    (maybeReopenConversation env mailbox conv si db).messages = db.messages := by
  unfold maybeReopenConversation
  split
  · rw [updateConversation_messages]
  · rfl

theorem maybeReopenConversation_jobs (env : Env) (mailbox : Mailbox) (conv : ConvRef)
    (si : Bool) (db : DB) :
    (maybeReopenConversation env mailbox conv si db).jobs = db.jobs := by
  unfold maybeReopenConversation
  split
  · rw [updateConversation_jobs_of_status_ne_closed _ _ _ _ (by simp)]
  · rfl

theorem maybeReopenConversation_nextMessageId (env : Env) (mailbox : Mailbox) (conv : ConvRef)
    (si : Bool) (db : DB) :
    (maybeReopenConversation env mailbox conv si db).nextMessageId = db.nextMessageId := by
  unfold maybeReopenConversation
  split
  · rw [updateConversation_nextMessageId]
  · rfl

theorem maybeReopenConversation_historyId (env : Env) (mailbox : Mailbox) (conv : ConvRef)
    (si : Bool) (db : DB) :
    (maybeReopenConversation env mailbox conv si db).historyId = db.historyId := by
  unfold maybeReopenConversation
  split
  · rw [updateConversation_historyId]
  · rfl

theorem maybeAssignBasedOnCc_messages (env : Env) (gse : GmailSupportEmail) (cid : Nat)
    (emailCc : Option String) (su : Option BasicUserProfile) (db : DB) :
    (maybeAssignBasedOnCc env gse cid emailCc su db).messages = db.messages := by
  unfold maybeAssignBasedOnCc
  split
  · dsimp only
    split
    · rw [assignBasedOnCc_messages]
    · rfl
  · rfl

theorem maybeAssignBasedOnCc_jobs (env : Env) (gse : GmailSupportEmail) (cid : Nat)
    (emailCc : Option String) (su : Option BasicUserProfile) (db : DB) :
    (maybeAssignBasedOnCc env gse cid emailCc su db).jobs = db.jobs := by
  unfold maybeAssignBasedOnCc
  split
  · dsimp only
    split
    · rw [assignBasedOnCc_jobs]
    · rfl
  · rfl

theorem maybeAssignBasedOnCc_historyId (env : Env) (gse : GmailSupportEmail) (cid : Nat)
    (emailCc : Option String) (su : Option BasicUserProfile) (db : DB) :
    (maybeAssignBasedOnCc env gse cid emailCc su db).historyId = db.historyId := by
  unfold maybeAssignBasedOnCc
  split
  · dsimp only
    split
    · rw [assignBasedOnCc_historyId]
    · rfl
  · rfl

theorem maybeAssignBasedOnCc_realtime (env : Env) (gse : GmailSupportEmail) (cid : Nat)
    (emailCc : Option String) (su : Option BasicUserProfile) (db : DB) :
    (maybeAssignBasedOnCc env gse cid emailCc su db).realtime = db.realtime := by
  unfold maybeAssignBasedOnCc
  split
  · dsimp only
    split
    · rw [assignBasedOnCc_realtime]
    · rfl
  · rfl

theorem createMessageAndProcessAttachments_messages (env : Env) (gse : GmailSupportEmail)
    (fe : FetchedEmail) (ph ct : String) (fs : List String) (g t : String) (conv : ConvRef)
    (su : Option BasicUserProfile) (db : DB) :
    ((createMessageAndProcessAttachments env gse fe ph ct fs g t conv su db).1).messages
      = db.messages ++ [(createMessageAndProcessAttachments env gse fe ph ct fs g t conv su db).2] := by
  simp only [createMessageAndProcessAttachments]
  rw [maybeAssignBasedOnCc_messages, createConversationMessage_messages]

theorem createMessageAndProcessAttachments_historyId (env : Env) (gse : GmailSupportEmail)
    (fe : FetchedEmail) (ph ct : String) (fs : List String) (g t : String) (conv : ConvRef)
    (su : Option BasicUserProfile) (db : DB) :
    ((createMessageAndProcessAttachments env gse fe ph ct fs g t conv su db).1).historyId
      = db.historyId := by
  simp only [createMessageAndProcessAttachments]
  rw [maybeAssignBasedOnCc_historyId, createConversationMessage_historyId]

theorem createMessageAndProcessAttachments_jobs_autoResponse (env : Env)
    (gse : GmailSupportEmail) (fe : FetchedEmail) (ph ct : String) (fs : List String)
    (g t : String) (conv : ConvRef) (su : Option BasicUserProfile) (db : DB) (k s : Nat) :
    ((DomainEvent.autoResponseCreate k, s)
        ∈ ((createMessageAndProcessAttachments env gse fe ph ct fs g t conv su db).1).jobs) ↔
      (DomainEvent.autoResponseCreate k, s) ∈ db.jobs := by
  simp only [createMessageAndProcessAttachments]
  rw [maybeAssignBasedOnCc_jobs, createConversationMessage_jobs]
  simp only [List.mem_append]
  constructor
  · rintro (h | h)
    · exact h
    · exfalso
      revert h
      split_ifs <;> simp
  · exact fun h => Or.inl h

theorem triggerEvent_messages (db : DB) (e : DomainEvent) (s : Nat) :
    (triggerEvent db e s).messages = db.messages := rfl

theorem triggerEvent_historyId (db : DB) (e : DomainEvent) (s : Nat) :
    (triggerEvent db e s).historyId = db.historyId := rfl

theorem triggerEvent_jobs (db : DB) (e : DomainEvent) (s : Nat) :
    (triggerEvent db e s).jobs = db.jobs ++ [(e, s)] := rfl

theorem countWithGmailId_eq_zero_iff (db : DB) (g : String) :
    countWithGmailId db g = 0 ↔
      db.messages.find? (fun m => m.gmailMessageId == some g) = none := by
  simp [countWithGmailId, List.length_eq_zero, List.filter_eq_nil_iff, List.find?_eq_none]

theorem processDeliveredMessage_fromMailbox (env : Env) (mailbox : Mailbox)
    (gse : GmailSupportEmail) (g t : String) (labels : List String) (fe : FetchedEmail)
    (db : DB) (h : (fe.fromAddress == gse.email) = true) :
    processDeliveredMessage env mailbox gse g t labels fe db =
      (db, { message := "Skipped - message " ++ g ++ " sent from mailbox"
             gmailMessageId := some g
             gmailThreadId := some t }) := by
  unfold processDeliveredMessage
  rw [if_pos h]

theorem processDeliveredMessage_messages_cases (env : Env) (mailbox : Mailbox)
    (gse : GmailSupportEmail) (g t : String) (labels : List String) (fe : FetchedEmail)
    (db : DB) :
    (((processDeliveredMessage env mailbox gse g t labels fe db).1).messages = db.messages) ∨
    ∃ m, (((processDeliveredMessage env mailbox gse g t labels fe db).1).messages
        = db.messages ++ [m]) ∧ m.gmailMessageId = some g := by
  unfold processDeliveredMessage
  split
  · exact Or.inl rfl
  · right
    dsimp only
    split
    · simp only [triggerEvent_messages, maybeReopenConversation_messages,
        createMessageAndProcessAttachments_messages, resolveConversation_messages]
      exact ⟨_, rfl, rfl⟩
    · simp only [maybeReopenConversation_messages,
        createMessageAndProcessAttachments_messages, resolveConversation_messages]
      exact ⟨_, rfl, rfl⟩

theorem processDeliveredMessage_historyId (env : Env) (mailbox : Mailbox)
    (gse : GmailSupportEmail) (g t : String) (labels : List String) (fe : FetchedEmail)
    (db : DB) :
    ((processDeliveredMessage env mailbox gse g t labels fe db).1).historyId = db.historyId := by
  unfold processDeliveredMessage
  split
  · rfl
  · dsimp only
    split
    · rw [triggerEvent_historyId, maybeReopenConversation_historyId,
        createMessageAndProcessAttachments_historyId, resolveConversation_historyId]
    · rw [maybeReopenConversation_historyId,
        createMessageAndProcessAttachments_historyId, resolveConversation_historyId]

theorem processMessage_skip_existing (env : Env) (mailbox : Mailbox)
    (gse : GmailSupportEmail) (db : DB) (g t : String) (labels : List String)
    (h : (db.messages.find? (fun m => m.gmailMessageId == some g)).isSome = true) :
    processMessage env mailbox gse db { id := some g, threadId := some t, labelIds := labels } =
      (db, { message := "Skipped - message " ++ g ++ " already exists"
             gmailMessageId := some g
             gmailThreadId := some t }) := by
  unfold processMessage
  dsimp only
  rw [if_pos h]

theorem processMessage_messages_cases (env : Env) (mailbox : Mailbox)
    (gse : GmailSupportEmail) (db : DB) (g t : String) (labels : List String) :
    (((processMessage env mailbox gse db
        { id := some g, threadId := some t, labelIds := labels }).1).messages = db.messages) ∨
    ∃ m, (((processMessage env mailbox gse db
        { id := some g, threadId := some t, labelIds := labels }).1).messages
          = db.messages ++ [m]) ∧ m.gmailMessageId = some g := by
  unfold processMessage
  dsimp only
  split
  · exact Or.inl rfl
  · split
    · exact Or.inl rfl
    · exact processDeliveredMessage_messages_cases env mailbox gse g t labels _ db

theorem processMessage_historyId (env : Env) (mailbox : Mailbox)
    (gse : GmailSupportEmail) (db : DB) (ref : MessageAddedRef) :
    ((processMessage env mailbox gse db ref).1).historyId = db.historyId := by
  unfold processMessage
  rcases ref with ⟨oid, otid, labels⟩
  cases oid with
  | none => cases otid <;> rfl
  | some g =>
    cases otid with
    | none => rfl
    | some t =>
      dsimp only
      split
      · rfl
      · split
        · rfl
        · exact processDeliveredMessage_historyId env mailbox gse g t labels _ db

theorem updateConversation_convEvents_of_found (env : Env) (db : DB) (cid : Nat)
    (u : UpdateOptions) (c : ConversationRec) (hc : getConv db cid = some c) :
    ((updateConversation env db cid u).1).convEvents = db.convEvents ++
      [{ conversationId := cid
         changes :=
           { status := c.status, assignedToId := c.assignedToId, assignedToAI := c.assignedToAI }
         byUserId := u.byUserId
         reason := u.message }] := by
  unfold getConv at hc
  unfold updateConversation
  rw [hc]

theorem updateConversation_status_set (env : Env) (db : DB) (cid : Nat) (u : UpdateOptions)
    (c : ConversationRec) (hc : getConv db cid = some c) (s : ConvStatus)
    (hs : u.set.status = some s) :
    getConvStatus ((updateConversation env db cid u).1) cid = some s := by
  unfold getConvStatus
  rw [getConv_updateConversation, hc]
  simp [applyConvSet, hs]

theorem updateConversation_assignedToId_set (env : Env) (db : DB) (cid : Nat)
    (u : UpdateOptions) (c : ConversationRec) (hc : getConv db cid = some c) (v : Option String)
    (hv : u.set.assignedToId = some v) :
    getAssignedToId ((updateConversation env db cid u).1) cid = v := by
  unfold getAssignedToId
  rw [getConv_updateConversation, hc]
  simp [applyConvSet, hv]

theorem assignBasedOnCc_assigns (env : Env) (db : DB) (cid : Nat) (cc : String)
    (gse : GmailSupportEmail) (u : BasicUserProfile) (c : ConversationRec)
    (hc : getConv db cid = some c)
    (hfind : ((env.extractAddresses cc).filter
        (fun address => jsToLowerCase address != jsToLowerCase gse.email)).findSome?
        (fun ccAddress => env.getBasicProfileByEmail ccAddress) = some u) :
    getAssignedToId (assignBasedOnCc env db cid cc gse) cid = some u.id ∧
    (assignBasedOnCc env db cid cc gse).convEvents = db.convEvents ++
      [{ conversationId := cid
         changes :=
           { status := c.status, assignedToId := c.assignedToId, assignedToAI := c.assignedToAI }
         byUserId := none
         reason := some "Auto-assigned based on CC" }] := by
  unfold assignBasedOnCc
  dsimp only
  rw [hfind]
  exact ⟨updateConversation_assignedToId_set env db cid _ c hc (some u.id) rfl,
    updateConversation_convEvents_of_found env db cid _ c hc⟩

theorem assignBasedOnCc_noMatch (env : Env) (db : DB) (cid : Nat) (cc : String)
    (gse : GmailSupportEmail)
    (hfind : ((env.extractAddresses cc).filter
        (fun address => jsToLowerCase address != jsToLowerCase gse.email)).findSome?
        (fun ccAddress => env.getBasicProfileByEmail ccAddress) = none) :
    assignBasedOnCc env db cid cc gse = db := by
  unfold assignBasedOnCc
  dsimp only
  rw [hfind]

theorem createMessageAndProcessAttachments_snd_id (env : Env) (gse : GmailSupportEmail)
    (fe : FetchedEmail) (ph ct : String) (fs : List String) (g t : String) (conv : ConvRef)
    (su : Option BasicUserProfile) (db : DB) :
    (createMessageAndProcessAttachments env gse fe ph ct fs g t conv su db).2.id
      = db.nextMessageId := rfl

theorem processLoop_length (env : Env) (mailbox : Mailbox) (gse : GmailSupportEmail)
    (refs : List MessageAddedRef) (db : DB) (acc : List ResultEntry) :
    (refs.foldl
      (fun (a : DB × List ResultEntry) ref =>
        let step := processMessage env mailbox gse a.1 ref
        (step.1, a.2 ++ [step.2]))
      (db, acc)).2.length = acc.length + refs.length := by
  induction refs generalizing db acc with
  | nil => simp
  | cons r rs ih =>
    simp only [List.foldl_cons]
    rw [ih]
    simp
    omega

theorem processMessage_error (env : Env) (mailbox : Mailbox) (gse : GmailSupportEmail)
    (db : DB) (g t : String) (labels : List String) (err : String)
    (hfetch : env.fetchMessage g = Except.error err)
    (hfind : db.messages.find? (fun m => m.gmailMessageId == some g) = none) :
    processMessage env mailbox gse db { id := some g, threadId := some t, labelIds := labels }
      = (db, { message := "Error processing message " ++ g ++ ": " ++ err
               gmailMessageId := some g
               gmailThreadId := some t }) := by
  unfold processMessage
  dsimp only
  rw [hfind, hfetch]
  rfl

/-! Claim theorems. -/

/-- C4: `isThankYouOrAutoResponse` returns true iff the classification
capability's returned text, trimmed and compared case-insensitively, equals
the literal token "yes"; on any invocation failure it returns false, so a
classification error always leaves the message treated as requiring
attention (the logging side effect is outside this model). -/
theorem classificationYesTokenAndFailOpen (env : Env) (mailbox : Mailbox) (content : String) :
    (isThankYouOrAutoResponse env mailbox content = true ↔
      ∃ s, env.aiQuery content = Except.ok s ∧ jsTrim (jsToLowerCase s) = "yes") ∧
    (∀ e, env.aiQuery content = Except.error e →
      isThankYouOrAutoResponse env mailbox content = false) := by
  constructor
  · unfold isThankYouOrAutoResponse
    cases h : env.aiQuery content with
    | ok sres => simp [h]
    | error e => simp [h]
  · intro e he
    unfold isThankYouOrAutoResponse
    rw [he]

/-- Witness for C4: in the sample environment the query on "thanks" returns
" Yes " (classified ignorable) and the query on "down" throws (fail-open). -/
theorem classificationYesTokenAndFailOpen_witness :
    isThankYouOrAutoResponse sampleEnv sampleMailbox "thanks" = true ∧
    isThankYouOrAutoResponse sampleEnv sampleMailbox "down" = false :=
  ⟨((classificationYesTokenAndFailOpen sampleEnv sampleMailbox "thanks").1).mpr
      ⟨" Yes ", rfl, by decide⟩,
   (classificationYesTokenAndFailOpen sampleEnv sampleMailbox "down").2 () rfl⟩

/-- C8: every conversation created by the pipeline is initialized with
status closed and closedAt = now exactly when the message was classified
ignorable (else open with closedAt null), and with assignedToAI equal to
the truthiness of the mailbox auto-respond preference. -/
theorem conversationCreationDefaults (env : Env) (mailbox : Mailbox) (fe : FetchedEmail)
    (si : Bool) (db : DB) :
    ∃ c, ((createNewConversation env mailbox fe si db).1).conversations
        = db.conversations ++ [c] ∧
      (createNewConversation env mailbox fe si db).2.id = c.id ∧
      (c.status = ConvStatus.closed ↔ si = true) ∧
      (c.status = ConvStatus.opened ↔ si = false) ∧
      (c.closedAt = some env.now ↔ si = true) ∧
      (c.closedAt = none ↔ si = false) ∧
      c.assignedToAI = (mailboxAutoRespond mailbox).isSome := by
  refine ⟨newConversationRec env mailbox fe si db.nextConversationId, rfl, rfl, ?_, ?_, ?_, ?_, rfl⟩ <;>
    (unfold newConversationRec; cases si <;> simp)

/-- C9: `parseEmailBody` on a plain-text-only email converts CRLF line
breaks to `<br/>` break tags and then behaves exactly as on an email whose
HTML body is that converted text; an HTML body enters the processing
verbatim, which extracts the parsed document body, strips the trailing run
of line-break-only tags and applies NFKD normalization; an absent body
yields the empty string. -/
theorem parseEmailBodySpec (env : Env) (fe : FetchedEmail) :
    (∀ s, fe.html = none → fe.textAsHtml = some s →
      parseEmailBody env fe
        = parseEmailBody env { fe with html := some (replaceCrlfWithBr s) }) ∧
    (∀ s, fe.html = none → fe.textAsHtml = none → fe.text = some s →
      parseEmailBody env fe
        = parseEmailBody env { fe with html := some (replaceCrlfWithBr s) }) ∧
    (∀ h, fe.html = some h →
      parseEmailBody env fe =
        (if h.isEmpty then ""
         else env.normalizeNFKD (stripTrailingBrTags ((env.extractBodyInnerHtml h).getD h)))) ∧
    (fe.html = none → fe.textAsHtml = none → fe.text = none → parseEmailBody env fe = "") := by
  refine ⟨?_, ?_, ?_, ?_⟩
  · intro s h1 h2
    simp [parseEmailBody, h1, h2]
  · intro s h1 h2 h3
    simp [parseEmailBody, h1, h2, h3]
  · intro h hh
    simp [parseEmailBody, hh]
  · intro h1 h2 h3
    simp [parseEmailBody, h1, h2, h3]

/-- Witness for C9: the plain-text/HTML agreement at a concrete input, and
a concrete HTML body whose trailing break tags are stripped. -/
theorem parseEmailBodySpec_witness :
    parseEmailBody sampleEnv { fromAddress := "a@b.c", textAsHtml := some "x" }
      = parseEmailBody sampleEnv
          { fromAddress := "a@b.c", textAsHtml := some "x", html := some (replaceCrlfWithBr "x") } ∧
    parseEmailBody sampleEnv { fromAddress := "a@b.c", html := some "a<br/><BR><br />" } = "a" := by
  constructor
  · exact (parseEmailBodySpec sampleEnv { fromAddress := "a@b.c", textAsHtml := some "x" }).1
      "x" rfl rfl
  · rw [(parseEmailBodySpec sampleEnv
      { fromAddress := "a@b.c", html := some "a<br/><BR><br />" }).2.2.1
      "a<br/><BR><br />" rfl]
    decide

/-- C10: `createConversationMessage` triggers `conversations/message.created`
for the created message iff its status is not draft, and triggers
`conversations/email.enqueued` for it, delayed by the email undo countdown,
iff its status is queueing. -/
theorem messageCreationEventGating (env : Env) (db : DB) (cm : NewConversationMessage) :
    ((DomainEvent.messageCreated (createConversationMessage env db cm).2.id
        (createConversationMessage env db cm).2.conversationId, 0)
        ∈ ((createConversationMessage env db cm).1).jobs.drop db.jobs.length ↔
      ¬ cm.status = some MsgStatus.draft) ∧
    ((DomainEvent.emailEnqueued (createConversationMessage env db cm).2.id,
        env.emailUndoCountdownSeconds)
        ∈ ((createConversationMessage env db cm).1).jobs.drop db.jobs.length ↔
      cm.status = some MsgStatus.queueing) := by
  simp only [createConversationMessage_jobs, createConversationMessage_snd, List.drop_left]
  rcases hst : cm.status with _ | st
  · simp [hst]
  · cases st <;> simp [hst]

/-- Witness for C10: a queueing staff reply triggers both events with the
undo-countdown delay; an AI draft triggers no message.created event. -/
theorem messageCreationEventGating_witness :
    ((DomainEvent.messageCreated 4 7, 0)
        ∈ ((createConversationMessage sampleEnv sampleDBClosed sampleQueueingMessage).1).jobs.drop
          sampleDBClosed.jobs.length) ∧
    ((DomainEvent.emailEnqueued 4, 15)
        ∈ ((createConversationMessage sampleEnv sampleDBClosed sampleQueueingMessage).1).jobs.drop
          sampleDBClosed.jobs.length) ∧
    ¬ ((DomainEvent.messageCreated 4 7, 0)
        ∈ ((createConversationMessage sampleEnv sampleDBClosed sampleDraftMessage).1).jobs.drop
          sampleDBClosed.jobs.length) :=
  ⟨(messageCreationEventGating sampleEnv sampleDBClosed sampleQueueingMessage).1.mpr (by decide),
   (messageCreationEventGating sampleEnv sampleDBClosed sampleQueueingMessage).2.mpr (by decide),
   fun h =>
     (messageCreationEventGating sampleEnv sampleDBClosed sampleDraftMessage).1.mp h rfl⟩

/-- C3: after persisting an inbound message, a closed conversation is
transitioned to open exactly when it is not AI-assigned or the mailbox
auto-respond mode is draft, and the message was not classified ignorable;
a closed AI-assigned conversation under auto-respond mode reply is left
untouched, its status remaining closed. -/
theorem reopenRule (env : Env) (mailbox : Mailbox) (conv : ConvRef) (si : Bool) (db : DB)
    (c : ConversationRec) (hc : getConv db conv.id = some c) :
    (conv.status = ConvStatus.closed →
      (conv.assignedToAI = false ∨ mailboxAutoRespond mailbox = some AutoRespondMode.draft) →
      si = false →
      getConvStatus (maybeReopenConversation env mailbox conv si db) conv.id
        = some ConvStatus.opened) ∧
    (conv.status = ConvStatus.closed → conv.assignedToAI = true →
      mailboxAutoRespond mailbox = some AutoRespondMode.reply →
      maybeReopenConversation env mailbox conv si db = db ∧
      getConvStatus (maybeReopenConversation env mailbox conv si db) conv.id
        = some c.status) := by
  constructor
  · intro hs hia hsi
    unfold maybeReopenConversation
    rw [if_pos (by rcases hia with h | h <;> simp [hs, hsi, h])]
    exact updateConversation_status_set env db conv.id _ c hc ConvStatus.opened rfl
  · intro hs hai hm
    have hneg : ¬ ((conv.status == ConvStatus.closed &&
        (!conv.assignedToAI || mailboxAutoRespond mailbox == some AutoRespondMode.draft) &&
        !si) = true) := by
      simp [hai, hm]
    unfold maybeReopenConversation
    rw [if_neg hneg]
    refine ⟨rfl, ?_⟩
    unfold getConvStatus
    rw [hc]
    rfl

/-- Witness for C3: on the closed AI-assigned conversation 7, a
non-ignorable message reopens under a draft-mode mailbox and leaves the
store untouched under a reply-mode mailbox. -/
theorem reopenRule_witness :
    getConvStatus (maybeReopenConversation sampleEnv sampleMailboxDraft sampleConvRef7 false
      sampleDBClosed) 7 = some ConvStatus.opened ∧
    maybeReopenConversation sampleEnv sampleMailboxReply sampleConvRef7 false sampleDBClosed
      = sampleDBClosed :=
  ⟨(reopenRule sampleEnv sampleMailboxDraft sampleConvRef7 false sampleDBClosed _ rfl).1 rfl
      (Or.inr rfl) rfl,
   ((reopenRule sampleEnv sampleMailboxReply sampleConvRef7 false sampleDBClosed _ rfl).2 rfl
      rfl rfl).1⟩

/-- C2: a first-in-thread message (message external id equals thread external
id) always creates a brand-new conversation, never one already in the store;
otherwise the conversation of the most recent persisted message with the
same thread id is adopted, and when no such message exists a new conversation
is created exactly as in the first-in-thread case. -/
theorem conversationResolution (env : Env) (mailbox : Mailbox) (fe : FetchedEmail) (si : Bool)
    (g t : String) (db : DB)
    (hfresh : ∀ c ∈ db.conversations, c.id < db.nextConversationId) :
    (g = t →
      resolveConversation env mailbox fe si g t db
        = createNewConversation env mailbox fe si db ∧
      ∀ c ∈ db.conversations, c.id ≠ (resolveConversation env mailbox fe si g t db).2.id) ∧
    (g ≠ t → ∀ prev, latestMessageInThread db t = some prev →
      ∀ c, getConv db prev.conversationId = some c →
        resolveConversation env mailbox fe si g t db
          = (db, { id := c.id, slug := c.slug, status := c.status,
                   assignedToAI := c.assignedToAI })) ∧
    (g ≠ t → latestMessageInThread db t = none →
      resolveConversation env mailbox fe si g t db
        = createNewConversation env mailbox fe si db) := by
  refine ⟨?_, ?_, ?_⟩
  · intro hgt
    have heq : resolveConversation env mailbox fe si g t db
        = createNewConversation env mailbox fe si db := by
      unfold resolveConversation
      rw [if_pos (by simp [isNewThread, hgt])]
    refine ⟨heq, ?_⟩
    intro c hcmem
    rw [heq, createNewConversation_snd]
    exact Nat.ne_of_lt (hfresh c hcmem)
  · intro hgt prev hprev c hc
    unfold getConv at hc
    unfold resolveConversation
    rw [if_neg (by simp [isNewThread, hgt]), hprev]
    dsimp only
    rw [hc]
  · intro hgt hnone
    unfold resolveConversation
    rw [if_neg (by simp [isNewThread, hgt]), hnone]

/-- Witness for C2: a first-in-thread message on thread "t9" creates a new
conversation; a follow-up on thread "t7" adopts conversation 7 of the most
recent message there; a follow-up on the unseen thread "t9" falls back to
creating a new conversation. -/
theorem conversationResolution_witness :
    resolveConversation sampleEnv sampleMailbox sampleFetched false "t9" "t9" sampleDBClosed
      = createNewConversation sampleEnv sampleMailbox sampleFetched false sampleDBClosed ∧
    resolveConversation sampleEnv sampleMailbox sampleFetched false "g2" "t7" sampleDBClosed
      = (sampleDBClosed,
         { id := 7, slug := "conversation-7", status := ConvStatus.closed,
           assignedToAI := true }) ∧
    resolveConversation sampleEnv sampleMailbox sampleFetched false "g2" "t9" sampleDBClosed
      = createNewConversation sampleEnv sampleMailbox sampleFetched false sampleDBClosed := by
  have h1 := conversationResolution sampleEnv sampleMailbox sampleFetched false "t9" "t9"
    sampleDBClosed (by decide)
  have h2 := conversationResolution sampleEnv sampleMailbox sampleFetched false "g2" "t7"
    sampleDBClosed (by decide)
  have h3 := conversationResolution sampleEnv sampleMailbox sampleFetched false "g2" "t9"
    sampleDBClosed (by decide)
  exact ⟨(h1.1 rfl).1, h2.2.1 (by decide) _ rfl _ rfl, h3.2.2 (by decide) rfl⟩

/-- C5: for a message that reaches the persistence path (not sent from the
mailbox itself), the returned entry's messageId is the freshly persisted
message id, its responded field is the negation of the ignore decision, and
the auto-response.create event carrying that message id is emitted iff the
message was not classified ignorable. -/
theorem autoResponseEventGating (env : Env) (mailbox : Mailbox) (gse : GmailSupportEmail)
    (g t : String) (labels : List String) (fe : FetchedEmail) (db : DB)
    (hmail : (fe.fromAddress == gse.email) = false)
    (hjobs : ∀ s, (DomainEvent.autoResponseCreate db.nextMessageId, s) ∉ db.jobs) :
    (processDeliveredMessage env mailbox gse g t labels fe db).2.messageId
      = some db.nextMessageId ∧
    (processDeliveredMessage env mailbox gse g t labels fe db).2.responded
      = some (!(messageIgnoreDecision env mailbox g t labels fe).1) ∧
    (((DomainEvent.autoResponseCreate db.nextMessageId, 0)
        ∈ ((processDeliveredMessage env mailbox gse g t labels fe db).1).jobs) ↔
      (messageIgnoreDecision env mailbox g t labels fe).1 = false) := by
  unfold processDeliveredMessage
  rw [if_neg (by simp [hmail])]
  dsimp only
  refine ⟨?_, rfl, ?_⟩
  · rw [createMessageAndProcessAttachments_snd_id, resolveConversation_nextMessageId]
  · cases hsi : (messageIgnoreDecision env mailbox g t labels fe).1 with
    | false =>
      rw [if_pos (by rfl)]
      rw [triggerEvent_jobs]
      refine iff_of_true ?_ rfl
      apply List.mem_append_right
      rw [createMessageAndProcessAttachments_snd_id, resolveConversation_nextMessageId]
      exact List.mem_singleton.mpr rfl
    | true =>
      rw [if_neg (by simp)]
      rw [maybeReopenConversation_jobs, createMessageAndProcessAttachments_jobs_autoResponse,
        resolveConversation_jobs]
      exact iff_of_false (hjobs 0) (by simp)

/-- Witness for C5: the sample customer email is persisted as message 1,
gets responded = true, and the auto-response.create event for it is
emitted. -/
theorem autoResponseEventGating_witness :
    (processDeliveredMessage sampleEnv sampleMailbox sampleGse "g1" "g1" [] sampleFetched
      sampleDB).2.messageId = some 1 ∧
    (processDeliveredMessage sampleEnv sampleMailbox sampleGse "g1" "g1" [] sampleFetched
      sampleDB).2.responded = some true ∧
    ((DomainEvent.autoResponseCreate 1, 0)
      ∈ ((processDeliveredMessage sampleEnv sampleMailbox sampleGse "g1" "g1" [] sampleFetched
        sampleDB).1).jobs) := by
  have h := autoResponseEventGating sampleEnv sampleMailbox sampleGse "g1" "g1" []
    sampleFetched sampleDB (by decide) (by simp [sampleDB])
  exact ⟨h.1, h.2.1.trans (by decide), h.2.2.mpr (by decide)⟩

/-- C1: starting from a store with no message for the Gmail message id, one
processing pass persists at most one message with that id; and whenever a
pass has persisted it, re-processing the same id leaves the store unchanged
and reports "already exists" — so ingesting the same external id twice
yields exactly one persisted message. -/
theorem ingestionDedupIdempotent (env : Env) (mailbox : Mailbox) (gse : GmailSupportEmail)
    (db : DB) (g t : String) (labels : List String) :
    (1 ≤ countWithGmailId db g →
      processMessage env mailbox gse db { id := some g, threadId := some t, labelIds := labels }
        = (db, { message := "Skipped - message " ++ g ++ " already exists"
                 gmailMessageId := some g
                 gmailThreadId := some t })) ∧
    (countWithGmailId db g = 0 →
      countWithGmailId
          (processMessage env mailbox gse db
            { id := some g, threadId := some t, labelIds := labels }).1 g ≤ 1 ∧
      (countWithGmailId (processMessage env mailbox gse db
            { id := some g, threadId := some t, labelIds := labels }).1 g = 1 →
        processMessage env mailbox gse
            (processMessage env mailbox gse db
              { id := some g, threadId := some t, labelIds := labels }).1
            { id := some g, threadId := some t, labelIds := labels }
          = ((processMessage env mailbox gse db
              { id := some g, threadId := some t, labelIds := labels }).1,
             { message := "Skipped - message " ++ g ++ " already exists"
               gmailMessageId := some g
               gmailThreadId := some t }))) := by
  constructor
  · intro hge
    apply processMessage_skip_existing
    rcases hfind : db.messages.find? (fun m => m.gmailMessageId == some g) with _ | m
    · exfalso
      have h0 : countWithGmailId db g = 0 := (countWithGmailId_eq_zero_iff db g).mpr hfind
      omega
    · rw [hfind]
      rfl
  · intro h
    rcases processMessage_messages_cases env mailbox gse db g t labels with hm | ⟨m, hm, hmg⟩
    · constructor
      · unfold countWithGmailId at h ⊢
        rw [hm, h]
        exact Nat.zero_le 1
      · intro h1
        exfalso
        unfold countWithGmailId at h h1
        rw [hm, h] at h1
        exact Nat.zero_ne_one h1
    · constructor
      · unfold countWithGmailId at h ⊢
        rw [hm, List.filter_append]
        simp [List.filter_cons, hmg, h]
      · intro h1
        apply processMessage_skip_existing
        rw [hm]
        rw [List.find?_isSome]
        exact ⟨m, by simp, by simp [hmg]⟩

/-- Witness for C1: processing the fresh message "g1" once persists exactly
one record for it, and processing it again is reported as a skip with the
store unchanged. -/
theorem ingestionDedupIdempotent_witness :
    processMessage sampleEnv sampleMailbox sampleGse sampleDBClosed
        { id := some "t7", threadId := some "t7", labelIds := [] }
      = (sampleDBClosed,
         { message := "Skipped - message " ++ "t7" ++ " already exists"
           gmailMessageId := some "t7"
           gmailThreadId := some "t7" }) ∧
    countWithGmailId sampleDB "g1" = 0 ∧
    countWithGmailId
        (processMessage sampleEnv sampleMailbox sampleGse sampleDB
          { id := some "g1", threadId := some "g1", labelIds := [] }).1 "g1" ≤ 1 ∧
    processMessage sampleEnv sampleMailbox sampleGse
        (processMessage sampleEnv sampleMailbox sampleGse sampleDB
          { id := some "g1", threadId := some "g1", labelIds := [] }).1
        { id := some "g1", threadId := some "g1", labelIds := [] }
      = ((processMessage sampleEnv sampleMailbox sampleGse sampleDB
          { id := some "g1", threadId := some "g1", labelIds := [] }).1,
         { message := "Skipped - message " ++ "g1" ++ " already exists"
           gmailMessageId := some "g1"
           gmailThreadId := some "g1" }) := by
  have h := (ingestionDedupIdempotent sampleEnv sampleMailbox sampleGse sampleDB "g1" "g1"
    []).2 (by decide)
  have hskip := (ingestionDedupIdempotent sampleEnv sampleMailbox sampleGse sampleDBClosed
    "t7" "t7" []).1 (by decide)
  exact ⟨hskip, by decide, h.1, h.2 (by decide)⟩

/-- C6: every batch entry yields exactly one result entry; a message whose
fetch throws is caught and recorded as an error entry with the store
untouched, so later entries still process; per-message processing never
writes the history cursor; and the handler persists the payload's history id
unconditionally after the loop. -/
theorem batchFailureIsolationAndCursor (env : Env) (mailbox : Mailbox)
    (gse : GmailSupportEmail) (data : WebhookData) (refs : List MessageAddedRef) (db : DB) :
    ((handleGmailWebhookEvent env mailbox gse data refs db).1).historyId
      = some data.historyId ∧
    ((handleGmailWebhookEvent env mailbox gse data refs db).2).length = refs.length ∧
    (∀ db2 ref, ((processMessage env mailbox gse db2 ref).1).historyId = db2.historyId) ∧
    (∀ db2 g t labels err, env.fetchMessage g = Except.error err →
      db2.messages.find? (fun m => m.gmailMessageId == some g) = none →
      processMessage env mailbox gse db2 { id := some g, threadId := some t, labelIds := labels }
        = (db2, { message := "Error processing message " ++ g ++ ": " ++ err
                  gmailMessageId := some g
                  gmailThreadId := some t })) := by
  refine ⟨rfl, ?_, processMessage_historyId env mailbox gse, ?_⟩
  · unfold handleGmailWebhookEvent
    dsimp only
    rw [processLoop_length]
    simp
  · intro db2 g t labels err hf hfind
    exact processMessage_error env mailbox gse db2 g t labels err hf hfind

/-- Witness for C6: a two-entry batch with a failing fetch in the middle
still yields two result entries and writes the cursor; the failing entry is
an error result with the store unchanged. -/
theorem batchFailureIsolationAndCursor_witness :
    ((handleGmailWebhookEvent sampleEnv sampleMailbox sampleGse
        { emailAddress := "support@example.com", historyId := 99 }
        [{ id := some "gbad", threadId := some "tb", labelIds := [] },
         { id := some "g1", threadId := some "g1", labelIds := [] }] sampleDB).1).historyId
      = some 99 ∧
    ((handleGmailWebhookEvent sampleEnv sampleMailbox sampleGse
        { emailAddress := "support@example.com", historyId := 99 }
        [{ id := some "gbad", threadId := some "tb", labelIds := [] },
         { id := some "g1", threadId := some "g1", labelIds := [] }] sampleDB).2).length = 2 ∧
    processMessage sampleEnv sampleMailbox sampleGse sampleDB
        { id := some "gbad", threadId := some "tb", labelIds := [] }
      = (sampleDB,
         { message := "Error processing message " ++ "gbad" ++ ": " ++ "network error"
           gmailMessageId := some "gbad"
           gmailThreadId := some "tb" }) := by
  have h := batchFailureIsolationAndCursor sampleEnv sampleMailbox sampleGse
    { emailAddress := "support@example.com", historyId := 99 }
    [{ id := some "gbad", threadId := some "tb", labelIds := [] },
     { id := some "g1", threadId := some "g1", labelIds := [] }] sampleDB
  exact ⟨h.1, h.2.1, h.2.2.2 sampleDB "gbad" "tb" [] "network error" rfl rfl⟩

/-- C7: CC auto-assignment scans the CC addresses with the mailbox's own
address excluded case-insensitively and assigns the conversation to the
first address with a staff profile, appending an audit event with reason
"Auto-assigned based on CC" and publishing no realtime event; when no CC
address matches, the store is unchanged; and the post-create guard reads
only `assignedToId` — it is stated for an arbitrary `assignedToAI`, so a
conversation with `assignedToAI = true` and `assignedToId = null` still
receives CC auto-assignment. -/
theorem ccAutoAssignment (env : Env) (db : DB) (cid : Nat) (cc : String)
    (gse : GmailSupportEmail) (c : ConversationRec) (hc : getConv db cid = some c) :
    (∀ u, ((env.extractAddresses cc).filter
          (fun address => jsToLowerCase address != jsToLowerCase gse.email)).findSome?
          (fun ccAddress => env.getBasicProfileByEmail ccAddress) = some u →
      getAssignedToId (assignBasedOnCc env db cid cc gse) cid = some u.id ∧
      (assignBasedOnCc env db cid cc gse).convEvents = db.convEvents ++
        [{ conversationId := cid
           changes := { status := c.status, assignedToId := c.assignedToId,
                        assignedToAI := c.assignedToAI }
           byUserId := none
           reason := some "Auto-assigned based on CC" }] ∧
      (assignBasedOnCc env db cid cc gse).realtime = db.realtime) ∧
    (((env.extractAddresses cc).filter
        (fun address => jsToLowerCase address != jsToLowerCase gse.email)).findSome?
        (fun ccAddress => env.getBasicProfileByEmail ccAddress) = none →
      assignBasedOnCc env db cid cc gse = db) ∧
    (∀ emailCc u, c.assignedToId = none →
      jsTruthy emailCc = true →
      ((env.extractAddresses (emailCc.getD "")).filter
        (fun address => jsToLowerCase address != jsToLowerCase gse.email)).findSome?
        (fun ccAddress => env.getBasicProfileByEmail ccAddress) = some u →
      getAssignedToId (maybeAssignBasedOnCc env gse cid emailCc none db) cid = some u.id) := by
  refine ⟨?_, ?_, ?_⟩
  · intro u hu
    have ha := assignBasedOnCc_assigns env db cid cc gse u c hc hu
    exact ⟨ha.1, ha.2, assignBasedOnCc_realtime env db cid cc gse⟩
  · exact assignBasedOnCc_noMatch env db cid cc gse
  · intro emailCc u hnone htr hu
    unfold maybeAssignBasedOnCc
    rw [if_pos (by simp [htr])]
    dsimp only
    rw [if_pos ?hguard]
    case hguard =>
      unfold getConv at hc
      rw [hc]
      simp [hnone]
    exact (assignBasedOnCc_assigns env db cid (emailCc.getD "") gse u c hc hu).1

/-- Witness for C7: on the AI-assigned but user-unassigned conversation 7,
CC "staff@example.com, support@example.com" excludes the mailbox's own
address and assigns staff-1 with no realtime publish, both directly and
through the post-create guard; a CC with no staff match leaves the store
unchanged. -/
theorem ccAutoAssignment_witness :
    getAssignedToId (assignBasedOnCc sampleEnv sampleDBClosed 7
        "staff@example.com, support@example.com" sampleGse) 7 = some "staff-1" ∧
    (assignBasedOnCc sampleEnv sampleDBClosed 7
        "staff@example.com, support@example.com" sampleGse).realtime
      = sampleDBClosed.realtime ∧
    assignBasedOnCc sampleEnv sampleDBClosed 7 "user2@example.com" sampleGse
      = sampleDBClosed ∧
    getAssignedToId (maybeAssignBasedOnCc sampleEnv sampleGse 7
        (some "staff@example.com, support@example.com") none sampleDBClosed) 7
      = some "staff-1" := by
  have h := ccAutoAssignment sampleEnv sampleDBClosed 7
    "staff@example.com, support@example.com" sampleGse _ rfl
  have h2 := ccAutoAssignment sampleEnv sampleDBClosed 7 "user2@example.com" sampleGse _ rfl
  refine ⟨(h.1 { id := "staff-1", email := "staff@example.com" } (by decide)).1,
    (h.1 { id := "staff-1", email := "staff@example.com" } (by decide)).2.2,
    h2.2.1 (by decide),
    h.2.2 (some "staff@example.com, support@example.com")
      { id := "staff-1", email := "staff@example.com" } rfl (by decide) (by decide)⟩

end Helper
